import Mathlib

/-!
Verification of the libgreat comms-class dispatch registry
(`src/firmware/drivers/comms/comms_class.c`).

Shallow embedding conventions:

* The process-wide linked list rooted at `class_head` is modelled as an
  explicit `List CommsClass` threaded through every function (head of the
  list = `class_head`, i.e. the most recently registered class).
* A nullable C pointer is modelled as `Option`; in particular
  `command_verbs == NULL` is `none`, and a sentinel-terminated verb array
  is modelled as the `List` of its non-terminator entries (the spec's
  invariant: every non-terminal entry has a non-null handler, and the
  terminator is the entry whose handler is null).
* A function whose C source can dereference a null pointer returns
  `Option`; the value `none` marks exactly those inputs on which the C
  code faults (undefined behaviour), and `some` carries the defined
  result.
* `uint32_t` class and verb numbers are modelled as `Nat`: the code only
  compares them for equality.  The `int next_verb_number` counter of
  `comms_auto_assign_verb_numbers` cannot overflow on the 32-bit target:
  a sentinel-terminated array of more than `2^31` descriptors does not
  fit in the address space, so plain `Nat` arithmetic is faithful.
* Handlers are opaque callables: a handler consumes the transaction and
  produces its `int` return code together with the (possibly mutated)
  transaction, since the C handler receives the transaction by pointer.
* Logging (`pr_error` / `pr_warning`) has no effect on the results the
  claims talk about and is not modelled.
-/

/-- Modelled from the spec: a `command_transaction` (its definition lives in
`drivers/comms.h`, which is not part of the sources).  `class_number` and
`verb` are the routing key; `okay` abstracts the response/status area that
handlers mutate and that the transaction-validity predicate inspects. -/
structure CommandTransaction where
  class_number : Nat
  verb : Nat
  okay : Bool

/-- A verb or class command handler: called with the transaction (by
pointer in C, hence the returned, possibly mutated, transaction) and
returning an `int` status code. -/
abbrev Handler := CommandTransaction → Int × CommandTransaction

/-- Modelled from the spec: a `comms_verb` descriptor (one non-terminator
entry of a verb table).  Non-terminator entries always carry a handler. -/
structure CommsVerb where
  verb_number : Nat
  name : Option String
  handler : Handler

/-- Modelled from the spec: a `comms_class` descriptor.  The `next` link
pointer is not a field here: the chaining is carried by the explicit
registry list instead. -/
structure CommsClass where
  class_number : Nat
  name : Option String
  command_verbs : Option (List CommsVerb)
  command_handler : Option Handler

/-- A command backend driver; only its display name is ever used (for
log messages). -/
structure CommBackendDriver where
  name : String

/-- `errno.h` invalid-argument code (newlib value). -/
def EINVAL : Int := 22

/-- `errno.h` bad-message code (newlib value). -/
def EBADMSG : Int := 77

/-- Modelled from the spec: the transaction-validity predicate
`comms_transaction_okay` (declared in `drivers/comms.h`, not part of the
sources) reports whether the transaction's own state is still valid after
a handler ran. -/
def comms_transaction_okay (t : CommandTransaction) : Bool := t.okay

/-- The scan loop of `comms_class_requires_verb_assignment`: walk the
verb table until the sentinel; any non-zero verb number means "no
auto-assignment"; reaching the sentinel means every number was zero. -/
def requires_assignment_scan : List CommsVerb → Bool
  | [] => true
  | v :: rest => if v.verb_number ≠ 0 then false else requires_assignment_scan rest

/-- `comms_class_requires_verb_assignment`.  The C loop initializes
`verb = comms_class->command_verbs` and immediately reads
`verb->handler`, so a class with a null verb table makes it dereference
a null pointer: that input is mapped to `none` (fault). -/
def comms_class_requires_verb_assignment (comms_class : CommsClass) : Option Bool :=
  match comms_class.command_verbs with
  | none => none
  | some vs => some (requires_assignment_scan vs)

/-- The loop of `comms_auto_assign_verb_numbers`, with the running
`next_verb_number` counter made an explicit argument. -/
def auto_assign_from (next_verb_number : Nat) : List CommsVerb → List CommsVerb
  | [] => []
  | v :: rest =>
      { v with verb_number := next_verb_number } :: auto_assign_from (next_verb_number + 1) rest

/-- `comms_auto_assign_verb_numbers`: number the verbs sequentially from
0 in declared order.  Like the predicate above, its loop dereferences a
null verb table (`none` = fault); in the C code it is only reached when
`comms_class_requires_verb_assignment` already succeeded. -/
def comms_auto_assign_verb_numbers (comms_class : CommsClass) : Option CommsClass :=
  match comms_class.command_verbs with
  | none => none
  | some vs => some { comms_class with command_verbs := some (auto_assign_from 0 vs) }

/-- `comms_register_class`: reject a null class (log and return, the
registry untouched); otherwise auto-assign verb numbers when required and
prepend the class to the registry list (`comms_class->next = class_head;
class_head = comms_class`).  Outer `none` = the call faulted. -/
def comms_register_class (registry : List CommsClass) (comms_class : Option CommsClass) :
    Option (List CommsClass) :=
  match comms_class with
  | none => some registry
  | some c =>
    match comms_class_requires_verb_assignment c with
    | none => none
    | some true =>
      match comms_auto_assign_verb_numbers c with
      | none => none
      | some c' => some (c' :: registry)
    | some false => some (c :: registry)

/-- `comms_get_class_by_number`: linear scan of the registry from
`class_head`, returning the first class with the given number, or null. -/
def comms_get_class_by_number (registry : List CommsClass) (class_number : Nat) :
    Option CommsClass :=
  match registry with
  | [] => none
  | cls :: rest =>
      if cls.class_number = class_number then some cls
      else comms_get_class_by_number rest class_number

/-- `comms_get_class_name`: the class's name, or `default_string` when
the class is absent or unnamed. -/
def comms_get_class_name (registry : List CommsClass) (class_number : Nat)
    (default_string : String) : String :=
  match comms_get_class_by_number registry class_number with
  | none => default_string
  | some cls =>
    match cls.name with
    | none => default_string
    | some n => n

/-- Which handler a submission ended up invoking; `verbHandler i` is the
handler of the verb table entry at index `i`.  This ghost record mirrors
the `found_handler` flag and the control flow of
`comms_backend_submit_command` so that theorems can speak about which
handler ran. -/
inductive Invocation where
  | verbHandler (i : Nat)
  | classHandler
  deriving DecidableEq

/-- Result of a submission that did not fault: the returned status code,
the final transaction state, and which handler (if any) was invoked. -/
structure SubmitResult where
  rc : Int
  trans : CommandTransaction
  invoked : Option Invocation

/-- The verb-table scan loop of `comms_backend_submit_command`: find the
first entry whose number equals the transaction's verb, invoke its
handler, and stop (`break`).  Returns the entry's index together with
the handler's return code and the mutated transaction. -/
def scan_verbs (trans : CommandTransaction) : List CommsVerb → Option (Nat × Int × CommandTransaction)
  | [] => none
  | v :: rest =>
      if v.verb_number = trans.verb then
        some (0, v.handler trans)
      else
        (scan_verbs trans rest).map (fun p => (p.1 + 1, p.2))

/-- The final status normalization of `comms_backend_submit_command`: a
zero handler return code on a transaction whose validity predicate fails
becomes `EBADMSG`; any non-zero code passes through unchanged. -/
def apply_success_override (rc : Int) (trans : CommandTransaction) : Int :=
  if rc = 0 ∧ ¬ comms_transaction_okay trans then EBADMSG else rc

/-- `comms_backend_submit_command`.  Steps, as in the source: resolve the
class (unknown class → `EINVAL`); a class with neither a verb table nor
a catch-all handler → `EINVAL`; scan the verb table for the first
matching verb and invoke it; otherwise delegate to the catch-all class
handler when present; no handler at all → `EINVAL`; finally apply the
success-override step.  When the class has a null verb table but does
have a catch-all handler, the misconfiguration check passes and the scan
loop dereferences the null `command_verbs` pointer: that input faults
(`none`). -/
def comms_backend_submit_command (registry : List CommsClass)
    (backend : CommBackendDriver) (trans : CommandTransaction) : Option SubmitResult :=
  match comms_get_class_by_number registry trans.class_number with
  | none => some { rc := EINVAL, trans := trans, invoked := none }
  | some handling_class =>
    match handling_class.command_verbs, handling_class.command_handler with
    | none, none => some { rc := EINVAL, trans := trans, invoked := none }
    | none, some _ => none
    | some vs, ch =>
      match scan_verbs trans vs with
      | some (i, rc, t') =>
          some { rc := apply_success_override rc t', trans := t',
                 invoked := some (Invocation.verbHandler i) }
      | none =>
        match ch with
        | some handler =>
            let p := handler trans
            some { rc := apply_success_override p.1 p.2, trans := p.2,
                   invoked := some Invocation.classHandler }
        | none => some { rc := EINVAL, trans := trans, invoked := none }

/-- `comms_get_object_for_verb`: resolve the class, guard against an
absent class and against a null verb table, then return the first verb
descriptor with the requested number. -/
def comms_get_object_for_verb (registry : List CommsClass)
    (class_number verb_number : Nat) : Option CommsVerb :=
  match comms_get_class_by_number registry class_number with
  | none => none
  | some handling_class =>
    match handling_class.command_verbs with
    | none => none
    | some vs => find_verb vs verb_number
where
  /-- The verb-table scan loop. -/
  find_verb : List CommsVerb → Nat → Option CommsVerb
    | [], _ => none
    | v :: rest, n => if v.verb_number = n then some v else find_verb rest n

/-- `comms_get_handler_name`.  The C function looks up both the verb
descriptor and the class; when no verb descriptor was found it reads
`handling_class->command_handler` without checking that the class lookup
succeeded, so an unregistered class number makes it dereference a null
pointer: that input is mapped to `none` (fault). -/
def comms_get_handler_name (registry : List CommsClass)
    (class_number verb_number : Nat)
    (class_handler_string default_string : String) : Option String :=
  match comms_get_object_for_verb registry class_number verb_number with
  | some verb =>
    match verb.name with
    | some n => some n
    | none => some default_string
  | none =>
    match comms_get_class_by_number registry class_number with
    | none => none
    | some handling_class =>
      match handling_class.command_handler with
      | some _ => some class_handler_string
      | none => some default_string

/-! ### Concrete sample data

Handlers, classes and transactions used to evaluate the development on
concrete inputs (witnesses of the theorems below). -/

/-- A handler that succeeds and leaves the transaction untouched. -/
def handler_ok : Handler := fun t => (0, t)

/-- A second distinguishable succeeding handler. -/
def handler_ok2 : Handler := fun t => (0, { t with verb := t.verb + 100 })

/-- A handler that returns the non-zero code 5. -/
def handler_err : Handler := fun t => (5, t)

/-- A handler that returns success but marks the transaction invalid. -/
def handler_bad_state : Handler := fun t => (0, { t with okay := false })

/-- A backend descriptor for sample submissions. -/
def sample_backend : CommBackendDriver := { name := "usb" }

/-- A class with a null verb table relying solely on its catch-all
handler (the configuration the spec declares legal). -/
def null_verbs_class : CommsClass :=
  { class_number := 7, name := some "pipe", command_verbs := none,
    command_handler := some handler_ok }

/-- A class whose two verbs both declare number 0 (auto-assignment). -/
def all_zero_class : CommsClass :=
  { class_number := 5, name := some "gpio",
    command_verbs := some [{ verb_number := 0, name := some "a", handler := handler_ok },
                           { verb_number := 0, name := some "b", handler := handler_ok2 }],
    command_handler := none }

/-- A class with one explicitly numbered verb and one zero verb:
numbering must be preserved verbatim. -/
def explicit_class : CommsClass :=
  { class_number := 6, name := none,
    command_verbs := some [{ verb_number := 3, name := none, handler := handler_ok },
                           { verb_number := 0, name := none, handler := handler_ok2 }],
    command_handler := none }

/-- A class with both a verb table and a catch-all handler. -/
def mixed_class : CommsClass :=
  { class_number := 2, name := some "spi",
    command_verbs := some [{ verb_number := 4, name := none, handler := handler_ok },
                           { verb_number := 1, name := some "xfer", handler := handler_err }],
    command_handler := some handler_ok2 }

/-- A class whose only verb handler claims success but invalidates the
transaction state. -/
def bad_state_class : CommsClass :=
  { class_number := 3, name := none,
    command_verbs := some [{ verb_number := 0, name := none, handler := handler_bad_state }],
    command_handler := none }

/-- A class with a verb table, no catch-all handler. -/
def verbs_only_class : CommsClass :=
  { class_number := 9, name := none,
    command_verbs := some [{ verb_number := 1, name := none, handler := handler_ok }],
    command_handler := none }

/-- A class with an empty verb table (immediately the sentinel) whose
catch-all handler reports a non-zero code. -/
def err_catchall_class : CommsClass :=
  { class_number := 8, name := none, command_verbs := some [],
    command_handler := some handler_err }

/-- Two distinct classes sharing class number 5, to exercise duplicate
registration. -/
def dup_class_old : CommsClass :=
  { class_number := 5, name := some "old", command_verbs := some [], command_handler := none }

/-- See `dup_class_old`. -/
def dup_class_new : CommsClass :=
  { class_number := 5, name := some "new", command_verbs := some [], command_handler := none }

/-! ### Helper lemmas about the scan loops -/

theorem requires_assignment_scan_of_all_zero :
    ∀ vs : List CommsVerb, (∀ v ∈ vs, v.verb_number = 0) →
      requires_assignment_scan vs = true
  | [], _ => rfl
  | v :: rest, h => by
      have hv : v.verb_number = 0 := h v (List.mem_cons_self v rest)
      simp [requires_assignment_scan, hv,
        requires_assignment_scan_of_all_zero rest (fun w hw => h w (List.mem_cons_of_mem v hw))]

theorem requires_assignment_scan_of_nonzero :
    ∀ vs : List CommsVerb, ∀ v ∈ vs, v.verb_number ≠ 0 →
      requires_assignment_scan vs = false
  | v :: rest, w, hw, hne => by
      rcases List.mem_cons.mp hw with rfl | hmem
      · simp [requires_assignment_scan, hne]
      · by_cases hv : v.verb_number = 0
        · simp [requires_assignment_scan, hv,
            requires_assignment_scan_of_nonzero rest w hmem hne]
        · simp [requires_assignment_scan, hv]

theorem auto_assign_from_length (n : Nat) :
    ∀ vs : List CommsVerb, (auto_assign_from n vs).length = vs.length
  | [] => rfl
  | _ :: rest => by simp [auto_assign_from, auto_assign_from_length (n + 1) rest]

theorem auto_assign_from_getElem? :
    ∀ (vs : List CommsVerb) (n i : Nat) (v : CommsVerb), vs[i]? = some v →
      (auto_assign_from n vs)[i]? = some { v with verb_number := n + i }
  | [], _, i, _, h => by simp at h
  | u :: rest, n, 0, v, h => by
      simp at h
      subst h
      simp [auto_assign_from]
  | u :: rest, n, i + 1, v, h => by
      simp at h
      have ih := auto_assign_from_getElem? rest (n + 1) i v h
      have harith : n + 1 + i = n + (i + 1) := by omega
      rw [harith] at ih
      simp [auto_assign_from, ih]

theorem scan_verbs_eq_none (trans : CommandTransaction) :
    ∀ vs : List CommsVerb, (∀ v ∈ vs, v.verb_number ≠ trans.verb) →
      scan_verbs trans vs = none
  | [], _ => rfl
  | v :: rest, h => by
      have hv : v.verb_number ≠ trans.verb := h v (List.mem_cons_self v rest)
      simp [scan_verbs, hv,
        scan_verbs_eq_none trans rest (fun w hw => h w (List.mem_cons_of_mem v hw))]

theorem scan_verbs_first (trans : CommandTransaction) :
    ∀ (vs : List CommsVerb) (i : Nat) (v : CommsVerb),
      vs[i]? = some v → v.verb_number = trans.verb →
      (∀ j, j < i → ∀ w, vs[j]? = some w → w.verb_number ≠ trans.verb) →
      scan_verbs trans vs = some (i, v.handler trans)
  | [], i, v, h, _, _ => by simp at h
  | u :: rest, 0, v, h, hm, _ => by
      simp at h
      subst h
      simp [scan_verbs, hm]
  | u :: rest, i + 1, v, h, hm, hfirst => by
      simp at h
      have hu : u.verb_number ≠ trans.verb :=
        hfirst 0 (Nat.succ_pos i) u (by simp)
      have ih := scan_verbs_first trans rest i v h hm
        (fun j hj w hw => hfirst (j + 1) (Nat.succ_lt_succ hj) w (by simpa using hw))
      simp [scan_verbs, hu, ih]

theorem comms_get_class_by_number_of_first (n : Nat) :
    ∀ (pre : List CommsClass) (c : CommsClass) (post : List CommsClass),
      (∀ c' ∈ pre, c'.class_number ≠ n) → c.class_number = n →
      comms_get_class_by_number (pre ++ c :: post) n = some c
  | [], c, post, _, hc => by simp [comms_get_class_by_number, hc]
  | d :: pre, c, post, hpre, hc => by
      have hd : d.class_number ≠ n := hpre d (List.mem_cons_self d pre)
      simp [comms_get_class_by_number, hd,
        comms_get_class_by_number_of_first n pre c post
          (fun c' h => hpre c' (List.mem_cons_of_mem d h)) hc]

theorem comms_get_class_by_number_of_absent (n : Nat) :
    ∀ registry : List CommsClass, (∀ c ∈ registry, c.class_number ≠ n) →
      comms_get_class_by_number registry n = none
  | [], _ => rfl
  | c :: rest, h => by
      have hc : c.class_number ≠ n := h c (List.mem_cons_self c rest)
      simp [comms_get_class_by_number, hc,
        comms_get_class_by_number_of_absent n rest (fun w hw => h w (List.mem_cons_of_mem c hw))]

/-! ### Registration lemmas -/

theorem comms_register_class_of_all_zero (registry : List CommsClass)
    (c : CommsClass) (vs : List CommsVerb) (hvs : c.command_verbs = some vs)
    (hzero : ∀ v ∈ vs, v.verb_number = 0) :
    comms_register_class registry (some c) =
      some ({ c with command_verbs := some (auto_assign_from 0 vs) } :: registry) := by
  have hreq : comms_class_requires_verb_assignment c = some true := by
    simp [comms_class_requires_verb_assignment, hvs,
      requires_assignment_scan_of_all_zero vs hzero]
  have hauto : comms_auto_assign_verb_numbers c =
      some { c with command_verbs := some (auto_assign_from 0 vs) } := by
    simp [comms_auto_assign_verb_numbers, hvs]
  simp [comms_register_class, hreq, hauto]

theorem comms_register_class_of_nonzero (registry : List CommsClass)
    (c : CommsClass) (vs : List CommsVerb) (hvs : c.command_verbs = some vs)
    (v0 : CommsVerb) (hmem : v0 ∈ vs) (hnz : v0.verb_number ≠ 0) :
    comms_register_class registry (some c) = some (c :: registry) := by
  have hreq : comms_class_requires_verb_assignment c = some false := by
    simp [comms_class_requires_verb_assignment, hvs,
      requires_assignment_scan_of_nonzero vs v0 hmem hnz]
  simp [comms_register_class, hreq]

/-! ### The claims -/

/-- Claim C10: registering a null class reference returns without
modifying the registry: the registered-class list is exactly the same
before and after the call (hence no class's verb numbers are altered). -/
theorem claim_C10 (registry : List CommsClass) :
    comms_register_class registry none = some registry := rfl

/-- Claim C1 (refuted - the code faults): a class whose verb table is
null but that has a catch-all handler cannot actually be registered:
`comms_register_class` calls `comms_class_requires_verb_assignment`,
whose loop condition reads `verb->handler` through the null
`command_verbs` pointer (modelled as `none` = fault).  Likewise, even if
such a class is placed in the registry by hand, submitting a transaction
naming it makes the verb-scan loop of `comms_backend_submit_command`
dereference the null table, because the misconfiguration guard only
rejects classes with *neither* verbs *nor* a catch-all handler. -/
theorem claim_C1 :
    comms_register_class [] (some null_verbs_class) = none ∧
    comms_backend_submit_command [null_verbs_class] sample_backend
      { class_number := 7, verb := 0, okay := true } = none :=
  ⟨rfl, rfl⟩

/-- Claim C2 (refuted - the code faults): when no class bears the queried
class number, `comms_get_handler_name` does not return `default_string`:
after the verb lookup fails it reads `handling_class->command_handler`
without checking that `comms_get_class_by_number` succeeded, so the null
class pointer is dereferenced (modelled as `none` = fault).  This holds
both for an empty registry and for a registry that simply lacks the
queried number. -/
theorem claim_C2 :
    comms_get_handler_name [] 99 0 "class handler" "default" = none ∧
    comms_get_handler_name [mixed_class] 99 1 "class handler" "default" = none :=
  ⟨rfl, rfl⟩

/-- Claim C3: for a class whose verb table entries all declare number 0,
registration prepends the class with its verbs renumbered 0, 1, ..., k-1
in the original array order, every other part of the class and of each
verb left unchanged. -/
theorem claim_C3 (registry : List CommsClass) (c : CommsClass) (vs : List CommsVerb)
    (hvs : c.command_verbs = some vs) (hzero : ∀ v ∈ vs, v.verb_number = 0) :
    ∃ c' vs', comms_register_class registry (some c) = some (c' :: registry) ∧
      c'.class_number = c.class_number ∧ c'.name = c.name ∧
      c'.command_handler = c.command_handler ∧
      c'.command_verbs = some vs' ∧ vs'.length = vs.length ∧
      ∀ (i : Nat) (v : CommsVerb), vs[i]? = some v →
        vs'[i]? = some { v with verb_number := i } := by
  refine ⟨{ c with command_verbs := some (auto_assign_from 0 vs) }, auto_assign_from 0 vs,
    comms_register_class_of_all_zero registry c vs hvs hzero,
    rfl, rfl, rfl, rfl, auto_assign_from_length 0 vs, ?_⟩
  intro i v h
  simpa using auto_assign_from_getElem? vs 0 i v h

/-- Witness for C3 on `all_zero_class`: its two zero-declared verbs end
up numbered 0 and 1. -/
theorem claim_C3_witness :
    ∃ c' vs', comms_register_class [] (some all_zero_class) = some (c' :: []) ∧
      c'.class_number = all_zero_class.class_number ∧ c'.name = all_zero_class.name ∧
      c'.command_handler = all_zero_class.command_handler ∧
      c'.command_verbs = some vs' ∧
      vs'.length = ([{ verb_number := 0, name := some "a", handler := handler_ok },
                     { verb_number := 0, name := some "b", handler := handler_ok2 }] :
                      List CommsVerb).length ∧
      ∀ (i : Nat) (v : CommsVerb),
        ([{ verb_number := 0, name := some "a", handler := handler_ok },
          { verb_number := 0, name := some "b", handler := handler_ok2 }] :
            List CommsVerb)[i]? = some v →
        vs'[i]? = some { v with verb_number := i } :=
  claim_C3 [] all_zero_class
    [{ verb_number := 0, name := some "a", handler := handler_ok },
     { verb_number := 0, name := some "b", handler := handler_ok2 }]
    rfl
    (by
      intro v hv
      simp only [List.mem_cons, List.not_mem_nil, or_false] at hv
      rcases hv with rfl | rfl <;> rfl)

/-- Claim C4: for a class with at least one verb declaring a non-zero
number, registration prepends the class object completely unchanged; in
particular every verb's number (zeros included) is preserved. -/
theorem claim_C4 (registry : List CommsClass) (c : CommsClass) (vs : List CommsVerb)
    (hvs : c.command_verbs = some vs)
    (v0 : CommsVerb) (hmem : v0 ∈ vs) (hnz : v0.verb_number ≠ 0) :
    comms_register_class registry (some c) = some (c :: registry) :=
  comms_register_class_of_nonzero registry c vs hvs v0 hmem hnz

/-- Witness for C4 on `explicit_class` (verbs numbered 3 and 0): the
class is registered verbatim. -/
theorem claim_C4_witness :
    comms_register_class [] (some explicit_class) = some (explicit_class :: []) :=
  claim_C4 [] explicit_class
    [{ verb_number := 3, name := none, handler := handler_ok },
     { verb_number := 0, name := none, handler := handler_ok2 }]
    rfl
    { verb_number := 3, name := none, handler := handler_ok }
    (List.mem_cons_self _ _)
    (by decide)

/-- Claim C5: lookup returns the most recently registered class bearing
the queried number, and null when none does.  Stated over the registry
list: (1) the scan returns the entry nearest the head (= most recently
registered) whose number matches; (2) it returns `none` when no entry
matches; (3) successful registration prepends the class (altering at
most its verb table), so "nearest the head" is "most recently
registered". -/
theorem claim_C5 (registry : List CommsClass) (n : Nat) :
    (∀ (pre : List CommsClass) (c : CommsClass) (post : List CommsClass),
        registry = pre ++ c :: post → (∀ c' ∈ pre, c'.class_number ≠ n) →
        c.class_number = n → comms_get_class_by_number registry n = some c)
    ∧ ((∀ c ∈ registry, c.class_number ≠ n) →
        comms_get_class_by_number registry n = none)
    ∧ (∀ (c : CommsClass) (r' : List CommsClass),
        comms_register_class registry (some c) = some r' →
        ∃ cv, r' = { c with command_verbs := cv } :: registry) := by
  refine ⟨?_, ?_, ?_⟩
  · intro pre c post hreg hpre hc
    subst hreg
    exact comms_get_class_by_number_of_first n pre c post hpre hc
  · intro habs
    exact comms_get_class_by_number_of_absent n registry habs
  · intro c r' hr
    cases hcv : c.command_verbs with
    | none =>
        simp [comms_register_class, comms_class_requires_verb_assignment, hcv] at hr
    | some vs =>
        cases hscan : requires_assignment_scan vs with
        | true =>
            have heq : comms_register_class registry (some c) =
                some ({ c with command_verbs := some (auto_assign_from 0 vs) } :: registry) := by
              simp [comms_register_class, comms_class_requires_verb_assignment, hcv, hscan,
                comms_auto_assign_verb_numbers]
            rw [heq] at hr
            exact ⟨some (auto_assign_from 0 vs), (Option.some.inj hr).symm⟩
        | false =>
            have heq : comms_register_class registry (some c) = some (c :: registry) := by
              simp [comms_register_class, comms_class_requires_verb_assignment, hcv, hscan]
            rw [heq] at hr
            refine ⟨c.command_verbs, ?_⟩
            have heta : ({ c with command_verbs := c.command_verbs } : CommsClass) = c := rfl
            rw [heta]
            exact (Option.some.inj hr).symm

/-- Witness for C5: with two classes both numbered 5 in the registry
(head = most recent), lookup of 5 yields the head; lookup of the
unregistered 9 yields null; registering `verbs_only_class` prepends it. -/
theorem claim_C5_witness :
    comms_get_class_by_number [dup_class_new, dup_class_old] 5 = some dup_class_new ∧
    comms_get_class_by_number [dup_class_new, dup_class_old] 9 = none ∧
    ∃ cv, [verbs_only_class] = { verbs_only_class with command_verbs := cv } :: [] :=
  ⟨(claim_C5 [dup_class_new, dup_class_old] 5).1 [] dup_class_new [dup_class_old] rfl
      (fun c' hc' => absurd hc' (List.not_mem_nil c')) rfl,
   (claim_C5 [dup_class_new, dup_class_old] 9).2.1
      (by
        intro c hc
        simp only [List.mem_cons, List.not_mem_nil, or_false] at hc
        rcases hc with rfl | rfl <;> decide),
   (claim_C5 [] 0).2.2 verbs_only_class [verbs_only_class] rfl⟩

/-- Claim C6: when the transaction's verb number has a (first) match at
index `i` of the resolved class's verb table and the class also has a
catch-all handler, submission invokes exactly the matching verb's
handler - the invocation record is `verbHandler i`, not `classHandler` -
and surfaces its return code through the success-override step. -/
theorem claim_C6 (registry : List CommsClass) (backend : CommBackendDriver)
    (trans : CommandTransaction) (hcls : CommsClass) (vs : List CommsVerb)
    (ch : Handler) (i : Nat) (v : CommsVerb)
    (hfind : comms_get_class_by_number registry trans.class_number = some hcls)
    (hvs : hcls.command_verbs = some vs)
    (hch : hcls.command_handler = some ch)
    (hv : vs[i]? = some v) (hmatch : v.verb_number = trans.verb)
    (hfirst : ∀ j, j < i → ∀ w, vs[j]? = some w → w.verb_number ≠ trans.verb) :
    comms_backend_submit_command registry backend trans =
      some { rc := apply_success_override (v.handler trans).1 (v.handler trans).2,
             trans := (v.handler trans).2,
             invoked := some (Invocation.verbHandler i) } := by
  have hscan := scan_verbs_first trans vs i v hv hmatch hfirst
  rcases hp : v.handler trans with ⟨rc0, t'⟩
  rw [hp] at hscan
  simp [comms_backend_submit_command, hfind, hvs, hch, hscan, hp]

/-- Witness for C6 on `mixed_class` (verbs numbered 4 and 1, plus a
catch-all): verb 1 dispatches to the second verb entry (`handler_err`,
code 5), not to the catch-all. -/
theorem claim_C6_witness :
    comms_backend_submit_command [mixed_class] sample_backend
        { class_number := 2, verb := 1, okay := true } =
      some { rc := 5, trans := { class_number := 2, verb := 1, okay := true },
             invoked := some (Invocation.verbHandler 1) } := by
  have h6 := claim_C6 [mixed_class] sample_backend
    { class_number := 2, verb := 1, okay := true } mixed_class
    [{ verb_number := 4, name := none, handler := handler_ok },
     { verb_number := 1, name := some "xfer", handler := handler_err }]
    handler_ok2 1
    { verb_number := 1, name := some "xfer", handler := handler_err }
    rfl rfl rfl rfl rfl
    (by
      intro j hj w hw
      have hj0 : j = 0 := by omega
      subst hj0
      simp only [List.getElem?_cons_zero, Option.some.injEq] at hw
      subst hw
      decide)
  simpa [handler_err, apply_success_override] using h6

/-- Claim C7: when no entry of the resolved class's verb table matches
the transaction's verb but the class has a catch-all handler, submission
invokes the catch-all handler with the transaction and returns its code,
subject only to the success-override step. -/
theorem claim_C7 (registry : List CommsClass) (backend : CommBackendDriver)
    (trans : CommandTransaction) (hcls : CommsClass) (vs : List CommsVerb)
    (h : Handler)
    (hfind : comms_get_class_by_number registry trans.class_number = some hcls)
    (hvs : hcls.command_verbs = some vs)
    (hnomatch : ∀ v ∈ vs, v.verb_number ≠ trans.verb)
    (hch : hcls.command_handler = some h) :
    comms_backend_submit_command registry backend trans =
      some { rc := apply_success_override (h trans).1 (h trans).2,
             trans := (h trans).2,
             invoked := some Invocation.classHandler } := by
  have hscan := scan_verbs_eq_none trans vs hnomatch
  rcases hp : h trans with ⟨rc0, t'⟩
  simp [comms_backend_submit_command, hfind, hvs, hch, hscan, hp]

/-- Witness for C7 on `mixed_class`: verb 9 matches neither entry, so
the catch-all `handler_ok2` runs (it bumps the verb field by 100 and
succeeds). -/
theorem claim_C7_witness :
    comms_backend_submit_command [mixed_class] sample_backend
        { class_number := 2, verb := 9, okay := true } =
      some { rc := 0, trans := { class_number := 2, verb := 109, okay := true },
             invoked := some Invocation.classHandler } := by
  have h7 := claim_C7 [mixed_class] sample_backend
    { class_number := 2, verb := 9, okay := true } mixed_class
    [{ verb_number := 4, name := none, handler := handler_ok },
     { verb_number := 1, name := some "xfer", handler := handler_err }]
    handler_ok2 rfl rfl
    (by
      intro v hv
      simp only [List.mem_cons, List.not_mem_nil, or_false] at hv
      rcases hv with rfl | rfl <;> decide)
    rfl
  simpa [handler_ok2, apply_success_override, comms_transaction_okay] using h7

/-- Claim C8: when the transaction's verb matches no verb-table entry
and the class has no catch-all handler, submission returns `EINVAL`,
leaves the transaction untouched and invokes no handler (the invocation
record is empty).  The hypothesis also covers a null verb table. -/
theorem claim_C8 (registry : List CommsClass) (backend : CommBackendDriver)
    (trans : CommandTransaction) (hcls : CommsClass)
    (hfind : comms_get_class_by_number registry trans.class_number = some hcls)
    (hch : hcls.command_handler = none)
    (hnomatch : ∀ vs, hcls.command_verbs = some vs → ∀ v ∈ vs, v.verb_number ≠ trans.verb) :
    comms_backend_submit_command registry backend trans =
      some { rc := EINVAL, trans := trans, invoked := none } := by
  cases hcv : hcls.command_verbs with
  | none => simp [comms_backend_submit_command, hfind, hcv, hch]
  | some vs =>
      have hscan := scan_verbs_eq_none trans vs (hnomatch vs hcv)
      simp [comms_backend_submit_command, hfind, hcv, hch, hscan]

/-- Witness for C8 on `verbs_only_class` (single verb numbered 1, no
catch-all): verb 2 yields `EINVAL` with no invocation. -/
theorem claim_C8_witness :
    comms_backend_submit_command [verbs_only_class] sample_backend
        { class_number := 9, verb := 2, okay := true } =
      some { rc := EINVAL, trans := { class_number := 9, verb := 2, okay := true },
             invoked := none } :=
  claim_C8 [verbs_only_class] sample_backend
    { class_number := 9, verb := 2, okay := true } verbs_only_class
    rfl rfl
    (by
      intro vs hvs v hv
      obtain rfl : ([{ verb_number := 1, name := none, handler := handler_ok }] :
          List CommsVerb) = vs := Option.some.inj hvs
      simp only [List.mem_cons, List.not_mem_nil, or_false] at hv
      subst hv
      decide)

/-- Claim C9: whichever handler a submission invokes (a matching verb's
handler, first conjunct, or the catch-all class handler, second
conjunct), a zero return code on a transaction whose validity predicate
reports failure is overridden to `EBADMSG`, while a non-zero return code
is surfaced unchanged, never overridden by the predicate check. -/
theorem claim_C9 (registry : List CommsClass) (backend : CommBackendDriver)
    (trans : CommandTransaction) (hcls : CommsClass)
    (hfind : comms_get_class_by_number registry trans.class_number = some hcls) :
    (∀ (vs : List CommsVerb) (i : Nat) (v : CommsVerb) (rc0 : Int) (t' : CommandTransaction),
        hcls.command_verbs = some vs → vs[i]? = some v → v.verb_number = trans.verb →
        (∀ j, j < i → ∀ w, vs[j]? = some w → w.verb_number ≠ trans.verb) →
        v.handler trans = (rc0, t') →
        ((rc0 = 0 → comms_transaction_okay t' = false →
            comms_backend_submit_command registry backend trans =
              some { rc := EBADMSG, trans := t',
                     invoked := some (Invocation.verbHandler i) }) ∧
         (rc0 ≠ 0 →
            comms_backend_submit_command registry backend trans =
              some { rc := rc0, trans := t',
                     invoked := some (Invocation.verbHandler i) })))
    ∧ (∀ (vs : List CommsVerb) (h : Handler) (rc0 : Int) (t' : CommandTransaction),
        hcls.command_verbs = some vs → (∀ v ∈ vs, v.verb_number ≠ trans.verb) →
        hcls.command_handler = some h → h trans = (rc0, t') →
        ((rc0 = 0 → comms_transaction_okay t' = false →
            comms_backend_submit_command registry backend trans =
              some { rc := EBADMSG, trans := t',
                     invoked := some Invocation.classHandler }) ∧
         (rc0 ≠ 0 →
            comms_backend_submit_command registry backend trans =
              some { rc := rc0, trans := t',
                     invoked := some Invocation.classHandler }))) := by
  constructor
  · intro vs i v rc0 t' hvs hv hmatch hfirst hres
    have hscan := scan_verbs_first trans vs i v hv hmatch hfirst
    rw [hres] at hscan
    constructor
    · intro hrc hok
      subst hrc
      simp [comms_backend_submit_command, hfind, hvs, hscan, apply_success_override, hok]
    · intro hrc
      simp [comms_backend_submit_command, hfind, hvs, hscan, apply_success_override, hrc]
  · intro vs h rc0 t' hvs hnomatch hch hres
    have hscan := scan_verbs_eq_none trans vs hnomatch
    constructor
    · intro hrc hok
      subst hrc
      simp [comms_backend_submit_command, hfind, hvs, hch, hscan,
        apply_success_override, hres, hok]
    · intro hrc
      simp [comms_backend_submit_command, hfind, hvs, hch, hscan,
        apply_success_override, hres, hrc]

/-- Witness for C9: on `bad_state_class` the only verb's handler returns
0 but invalidates the transaction, and the submission reports `EBADMSG`;
on `err_catchall_class` the catch-all returns 5, and the submission
reports 5 unchanged. -/
theorem claim_C9_witness :
    comms_backend_submit_command [bad_state_class] sample_backend
        { class_number := 3, verb := 0, okay := true } =
      some { rc := EBADMSG, trans := { class_number := 3, verb := 0, okay := false },
             invoked := some (Invocation.verbHandler 0) } ∧
    comms_backend_submit_command [err_catchall_class] sample_backend
        { class_number := 8, verb := 0, okay := true } =
      some { rc := 5, trans := { class_number := 8, verb := 0, okay := true },
             invoked := some Invocation.classHandler } :=
  ⟨((claim_C9 [bad_state_class] sample_backend
        { class_number := 3, verb := 0, okay := true } bad_state_class rfl).1
      [{ verb_number := 0, name := none, handler := handler_bad_state }] 0
      { verb_number := 0, name := none, handler := handler_bad_state } 0
      { class_number := 3, verb := 0, okay := false }
      rfl rfl rfl (fun j hj => absurd hj (Nat.not_lt_zero j)) rfl).1 rfl rfl,
   ((claim_C9 [err_catchall_class] sample_backend
        { class_number := 8, verb := 0, okay := true } err_catchall_class rfl).2
      [] handler_err 5 { class_number := 8, verb := 0, okay := true }
      rfl (fun v hv => absurd hv (List.not_mem_nil v)) rfl rfl).2 (by decide)⟩

/-- Witness for C10: a null registration leaves a one-class registry
untouched. -/
theorem claim_C10_witness :
    comms_register_class [mixed_class] none = some [mixed_class] :=
  claim_C10 [mixed_class]
